import Mathlib

/-!
Shallow embedding of the gmSBF meme-animator sources (geminiService,
AnimationPlayer, App) together with proofs about the behaviour its
specification describes.  Strings are modelled as `List Char`, JavaScript
numbers as `Int`/`Nat` (times in integer milliseconds), and the fallible
operations as `Option`/`Except`.
-/

namespace GmSBF

/-! Basic string helpers shared by the models (JavaScript `includes`,
`toLowerCase`). -/

/-- Does the second list start with the first list? -/
def startsWithChars : List Char → List Char → Bool
  | [], _ => true
  | _ :: _, [] => false
  | a :: as, b :: bs => a = b && startsWithChars as bs

/-- JavaScript `hay.includes(needle)`: the needle occurs contiguously in the
haystack. -/
def includesSub (hay needle : List Char) : Bool :=
  (List.range (hay.length + 1)).any (fun i => startsWithChars needle (hay.drop i))

/-- JavaScript `s.toLowerCase()` restricted to the ASCII letters the app
compares against. -/
def lowerChars (s : List Char) : List Char :=
  s.map Char.toLower

/-! A model of the JSON values relevant to `JSON.parse` as used by
`geminiService` (objects, arrays, strings without escape sequences, integer
numerals, booleans, null). -/

inductive Json where
  | num : Int → Json
  | str : List Char → Json
  | bool : Bool → Json
  | null : Json
  | arr : List Json → Json
  | obj : List (List Char × Json) → Json

/-- JSON insignificant whitespace, skipped between tokens. -/
def skipWs : List Char → List Char
  | [] => []
  | c :: rest =>
    if c = ' ' || c = '\n' || c = '\t' || c = '\r' then skipWs rest
    else c :: rest

/-- Consume a string body up to the closing quote (escape sequences are not
modelled; no input considered here contains them). -/
def parseStringBody : List Char → Option (List Char × List Char)
  | [] => none
  | c :: rest =>
    if c = '\"' then some ([], rest)
    else
      match parseStringBody rest with
      | some (s, r) => some (c :: s, r)
      | none => none

/-- Consume a maximal run of decimal digits. -/
def parseDigits : List Char → (List Char × List Char)
  | [] => ([], [])
  | c :: rest =>
    if c.isDigit then
      let (ds, r) := parseDigits rest
      (c :: ds, r)
    else ([], c :: rest)

/-- Value of a digit run. -/
def digitsToNat (ds : List Char) : Nat :=
  ds.foldl (fun acc c => acc * 10 + (c.toNat - 48)) 0

/-- Parse an integer numeral with an optional leading minus sign. -/
def parseNumber (s : List Char) : Option (Int × List Char) :=
  match s with
  | '-' :: rest =>
    (match parseDigits rest with
     | ([], _) => none
     | (ds, r) => some (-(Int.ofNat (digitsToNat ds)), r))
  | _ =>
    match parseDigits s with
    | ([], _) => none
    | (ds, r) => some (Int.ofNat (digitsToNat ds), r)

/-- Mode of the recursive descent: a value, the member list of an object, or
the element list of an array. -/
inductive PMode where
  | val : PMode
  | objm : List (List Char × Json) → PMode
  | arrm : List Json → PMode

/-- Fuel-indexed recursive-descent JSON reader.  The fuel only bounds the
nesting of recursive calls; every use supplies enough fuel for its input. -/
def parseStep : Nat → PMode → List Char → Option (Json × List Char)
  | 0, _, _ => none
  | fuel + 1, PMode.val, s =>
    (match skipWs s with
     | [] => none
     | c :: rest =>
       if c = '\x7b' then parseStep fuel (PMode.objm []) rest
       else if c = '[' then parseStep fuel (PMode.arrm []) rest
       else if c = '\"' then
         match parseStringBody rest with
         | some (t, r) => some (Json.str t, r)
         | none => none
       else if c = 't' then
         match rest with
         | 'r' :: 'u' :: 'e' :: r => some (Json.bool true, r)
         | _ => none
       else if c = 'f' then
         match rest with
         | 'a' :: 'l' :: 's' :: 'e' :: r => some (Json.bool false, r)
         | _ => none
       else if c = 'n' then
         match rest with
         | 'u' :: 'l' :: 'l' :: r => some (Json.null, r)
         | _ => none
       else
         match parseNumber (c :: rest) with
         | some (n, r) => some (Json.num n, r)
         | none => none)
  | fuel + 1, PMode.objm acc, s =>
    (match skipWs s with
     | '\x7d' :: r => some (Json.obj acc, r)
     | '\"' :: rest =>
       (match parseStringBody rest with
        | some (key, r1) =>
          (match skipWs r1 with
           | ':' :: r2 =>
             (match parseStep fuel PMode.val r2 with
              | some (v, r3) =>
                (match skipWs r3 with
                 | ',' :: r4 => parseStep fuel (PMode.objm (acc ++ [(key, v)])) r4
                 | '\x7d' :: r4 => some (Json.obj (acc ++ [(key, v)]), r4)
                 | _ => none)
              | none => none)
           | _ => none)
        | none => none)
     | _ => none)
  | fuel + 1, PMode.arrm acc, s =>
    (match skipWs s with
     | ']' :: r => some (Json.arr acc, r)
     | s2 =>
       match parseStep fuel PMode.val s2 with
       | some (v, r1) =>
         (match skipWs r1 with
          | ',' :: r2 => parseStep fuel (PMode.arrm (acc ++ [v])) r2
          | ']' :: r2 => some (Json.arr (acc ++ [v]), r2)
          | _ => none)
       | none => none)

/-- Model of `JSON.parse`: read one value and require only whitespace after
it, otherwise fail (the JavaScript function throws). -/
def jsonParse (s : List Char) : Option Json :=
  match parseStep (s.length + 1) PMode.val s with
  | some (v, rest) => if skipWs rest = [] then some v else none
  | none => none

/-- JavaScript property access `parsed.key` on a parse result: on objects the
last member with the key wins (as in `JSON.parse`), anything else yields
`none` (undefined). -/
def objGet (v : Json) (key : List Char) : Option Json :=
  match v with
  | Json.obj fields =>
    fields.foldl (fun acc kv => if kv.1 = key then some kv.2 else acc) none
  | _ => none

/-! Model of `services/geminiService.ts` (`generateAnimationAssets`). -/

/-- One frame rectangle (`Frame` in `types.ts`).  Coordinates are `Int`
because the shrunken width and height of a cell can go negative. -/
structure Frame where
  x : Int
  y : Int
  width : Int
  height : Int
deriving DecidableEq

/-- An `inlineData` payload of a model response part. -/
structure InlineData where
  data : List Char
  mimeType : List Char
deriving DecidableEq

/-- One part of the model response: optional inline image data and optional
text. -/
structure Part where
  inlineData : Option InlineData
  text : Option (List Char)
deriving DecidableEq

/-- The `AnimationAssets` record returned by `generateAnimationAssets`. -/
structure AnimationAssets where
  imageData : InlineData
  frames : List Frame
  frameDuration : Int
deriving DecidableEq

/-- The default fallback frame duration (`let frameDuration = 120`). -/
def defaultFrameDuration : Int := 120

/-- The key looked up on the parsed reply object. -/
def fdKey : List Char := "frameDuration".toList

/-- The regex match `text.match(/\x7b.*\x7d/s)`: with a greedy dot-all body the
match runs from the first opening brace to the last closing brace of the whole
text, and exists exactly when some closing brace lies strictly after the first
opening brace. -/
def jsonMatch (s : List Char) : Option (List Char) :=
  match s.findIdx? (fun c => c = '\x7b'), s.reverse.findIdx? (fun c => c = '\x7d') with
  | some i, some jr =>
    let j := s.length - 1 - jr
    if i < j then some ((s.take (j + 1)).drop i) else none
  | _, _ => none

/-- The truthiness-plus-type test `parsed.frameDuration && typeof
parsed.frameDuration === 'number'` followed by the assignment: only a nonzero
numeric field replaces the default. -/
def durationFromParsed (v : Json) : Int :=
  match objGet v fdKey with
  | some (Json.num d) => if d = 0 then defaultFrameDuration else d
  | _ => defaultFrameDuration

/-- Lines 70-87 of the service: extract a JSON-like substring, try to parse
it, and keep the default on any failure (`JSON.parse` throwing is caught). -/
def parseFrameDuration (text : List Char) : Int :=
  match jsonMatch text with
  | some s =>
    (match jsonParse s with
     | some v => durationFromParsed v
     | none => defaultFrameDuration)
  | none => defaultFrameDuration

/-- Message thrown when the response carries no parts at all. -/
def noPartsMsg : List Char :=
  "Invalid response from model. No parts found.".toList

/-- Head of the no-image error message. -/
def noImageHead : List Char :=
  "Model did not return an image. Response: ".toList

/-- Marker used when the response has no text part. -/
def noTextMarker : List Char := "<no text>".toList

/-- Needle recognising an invalid-credential failure. -/
def apiKeyNeedle : List Char := "API key not valid".toList

/-- Needle recognising a quota failure. -/
def quotaNeedle : List Char := "quota".toList

/-- Fixed user-facing invalid-credential message. -/
def apiKeyMsg : List Char :=
  "Your API key is not valid. Please check and try again.".toList

/-- Fixed user-facing quota message. -/
def quotaMsg : List Char :=
  "You have exceeded your API quota. Please check your account.".toList

/-- Head prepended to every other rethrown failure. -/
def failHead : List Char := "Failed to generate animation. ".toList

/-- The first part whose inline data object is present
(`responseParts.find(p => p.inlineData)` followed by `?.inlineData`). -/
def imageOf (parts : List Part) : Option InlineData :=
  (parts.find? (fun p => p.inlineData.isSome)).bind (fun p => p.inlineData)

/-- The first part with a truthy (nonempty) text
(`responseParts.find(p => p.text)` followed by `?.text`). -/
def textOf (parts : List Part) : Option (List Char) :=
  (parts.find? (fun p => !(p.text.getD []).isEmpty)).bind (fun p => p.text)

/-- Message of the error thrown when the found image part has no data. -/
def noImageMsg (parts : List Part) : List Char :=
  noImageHead ++ (textOf parts).getD noTextMarker

/-- The try-block of `generateAnimationAssets`, taking the model response
(`none` models absent `candidates[0].content.parts`). -/
def generateInner (resp : Option (List Part)) : Except (List Char) AnimationAssets :=
  match resp with
  | none => Except.error noPartsMsg
  | some parts =>
    match imageOf parts with
    | some d =>
      if d.data.isEmpty then Except.error (noImageMsg parts)
      else
        Except.ok
          { imageData := d
            frames := []
            frameDuration :=
              match textOf parts with
              | some t => parseFrameDuration t
              | none => defaultFrameDuration }
    | none => Except.error (noImageMsg parts)

/-- The catch-block of `generateAnimationAssets`: map credential and quota
failures to fixed messages and wrap everything else. -/
def mapError (m : List Char) : List Char :=
  if includesSub m apiKeyNeedle then apiKeyMsg
  else if includesSub m quotaNeedle then quotaMsg
  else failHead ++ m

/-- The whole of `generateAnimationAssets` as a function of the model
response. -/
def generateAnimationAssets (resp : Option (List Part)) :
    Except (List Char) AnimationAssets :=
  match generateInner resp with
  | Except.ok a => Except.ok a
  | Except.error m => Except.error (mapError m)

/-! Model of `components/AnimationPlayer.tsx`. -/

/-- The fixed inset cropped from every side of a cell (`const cropAmount =
10`). -/
def cropAmount : Int := 10

/-- The frame layout computed in the sprite-sheet loading effect: a 3-by-3
row-major grid of cells of the floor-divided dimensions, each shrunk by the
inset on all sides. -/
def frameLayout (W H : Nat) : List Frame :=
  let frameWidth : Int := Int.ofNat (W / 3)
  let frameHeight : Int := Int.ofNat (H / 3)
  (List.range 9).map (fun i =>
    { x := Int.ofNat (i % 3) * frameWidth + cropAmount
      y := Int.ofNat (i / 3) * frameHeight + cropAmount
      width := frameWidth - cropAmount * 2
      height := frameHeight - cropAmount * 2 })

/-- A sliced cell: either the 1-by-1 transparent placeholder substituted for a
malformed rectangle, or a crop of the sheet at the given rectangle. -/
inductive Sliced where
  | placeholder : Sliced
  | crop : Int → Int → Int → Int → Sliced
deriving DecidableEq

/-- Pixel width of a sliced cell. -/
def Sliced.width : Sliced → Int
  | Sliced.placeholder => 1
  | Sliced.crop _ _ w _ => w

/-- Pixel height of a sliced cell. -/
def Sliced.height : Sliced → Int
  | Sliced.placeholder => 1
  | Sliced.crop _ _ _ h => h

/-- Slicing of a single cell inside `processSpriteSheet`: a rectangle with
non-positive width or height resolves to the placeholder, any other rectangle
to the corresponding crop. -/
def sliceCell (f : Frame) : Sliced :=
  if f.width ≤ 0 ∨ f.height ≤ 0 then Sliced.placeholder
  else Sliced.crop f.x f.y f.width f.height

/-- The batch of `processSpriteSheet`: an empty layout is the terminal
no-frames condition; otherwise the batch succeeds with every member, in
order. -/
def processSpriteSheet (layout : List Frame) : Option (List Sliced) :=
  if layout.length = 0 then none
  else some (layout.map sliceCell)

/-- The player's animation config (`interface AnimationConfig`). -/
structure AnimationConfig where
  speed : Nat

/-- The mutable playback state the effect closes over: the config state and
the `animationStartTimeRef` clock origin (0 meaning unset). -/
structure PlayerState where
  config : AnimationConfig
  animationStartTime : Nat

/-- The slider handler `setConfig(c => (...c with speed v))`: it touches only
the config, never the clock origin ref. -/
def setSpeed (st : PlayerState) (v : Nat) : PlayerState :=
  { st with config := { st.config with speed := v } }

/-- One invocation of `animate(timestamp)` with `n` frames: initialise the
clock origin if unset, then select the frame index from the elapsed time
modulo the loop duration.  Returns the updated state and the index drawn. -/
def animate (st : PlayerState) (timestamp n : Nat) : PlayerState × Nat :=
  let s := if st.animationStartTime = 0 then timestamp else st.animationStartTime
  let totalDuration := n * st.config.speed
  let elapsedTime := (timestamp - s) % totalDuration
  ({ st with animationStartTime := s }, elapsedTime / st.config.speed)

/-- Initialisation of the config speed from the assets
(`speed: assets.frameDuration or else DEFAULT_CONFIG.speed`, where a zero
duration is falsy). -/
def initialSpeed (frameDuration : Int) : Int :=
  if frameDuration = 0 then 120 else frameDuration

/-! Model of the `App` component state handlers in `types.ts`. -/

/-- A saved creation record. -/
structure Creation where
  id : List Char
  assets : AnimationAssets
  prompt : List Char
deriving DecidableEq

/-- The app's screen state (`enum AppState`). -/
inductive AppScreen where
  | capturing
  | processing
  | animating
  | errorScreen
  | gallery
deriving DecidableEq

/-- The slice of the `App` component state the error-handling claims talk
about. -/
structure AppModel where
  appState : AppScreen
  originalImage : Option (List Char)
  creations : List Creation
  error : Option (List Char)
  apiKeyError : Option (List Char)
  showApiKeyModal : Bool
deriving DecidableEq

/-- Needle of the lower-cased credential test in the catch branch. -/
def apiKeyLowerNeedle : List Char := "api key".toList

/-- The api-key banner text built in the catch branch. -/
def apiKeyIssueMsg (m : List Char) : List Char :=
  "There was an issue with your API key: ".toList ++ m
    ++ ". Please check it and try again.".toList

/-- The catch branch of `handleCreateAnimation`: route credential and quota
messages to the api-key modal, everything else to the error banner, and
return to the capturing screen. -/
def handleCreateAnimationFailure (st : AppModel) (m : List Char) : AppModel :=
  if includesSub (lowerChars m) apiKeyLowerNeedle
      || includesSub (lowerChars m) quotaNeedle then
    { st with
        apiKeyError := some (apiKeyIssueMsg m)
        showApiKeyModal := true
        appState := AppScreen.capturing }
  else
    { st with
        error := some m
        appState := AppScreen.capturing }

/-- The save handler: build the new record and store `[newCreation,
...creations]`. -/
def handleSaveCreation (c : Creation) (creations : List Creation) : List Creation :=
  c :: creations

/-- The delete handler: `creations.filter(c => c.id !== id)`. -/
def handleDeleteCreation (idv : List Char) (creations : List Creation) : List Creation :=
  creations.filter (fun c => c.id != idv)

/-! Concrete records used by witnesses and counterexamples. -/

/-- A concrete nonempty image payload. -/
def demoImage : InlineData :=
  { data := "imgbytes".toList, mimeType := "image/png".toList }

/-- A concrete saved creation. -/
def demoCreationA : Creation :=
  { id := "2024-01-01T00:00:00.000Z".toList
    assets := { imageData := demoImage, frames := [], frameDuration := 120 }
    prompt := "gm".toList }

/-- A second concrete saved creation with a different id. -/
def demoCreationB : Creation :=
  { id := "2024-02-02T00:00:00.000Z".toList
    assets := { imageData := demoImage, frames := [], frameDuration := 150 }
    prompt := "sbf".toList }

/-- The exact reply text of the round-trip claim. -/
def json150 : List Char := "\x7b\"frameDuration\": 150\x7d".toList

/-- The round-trip text followed by one more closing brace. -/
def json150Trailing : List Char := "\x7b\"frameDuration\": 150\x7d\x7d".toList

/-- A reply text carrying a zero duration. -/
def jsonZeroText : List Char := "\x7b\"frameDuration\": 0\x7d".toList

/-- A reply text carrying a negative duration outside the documented range. -/
def jsonNegText : List Char := "\x7b\"frameDuration\": -500\x7d".toList

/-- A reply text that mentions the word quota. -/
def quotaText : List Char := "my quota ran out".toList

/-! Helper lemmas about the string helpers. -/

theorem startsWithChars_self (t : List Char) : startsWithChars t t = true := by
  induction t with
  | nil => rfl
  | cons a as ih => simp [startsWithChars, ih]

theorem includesSub_append_self (a t : List Char) :
    includesSub (a ++ t) t = true := by
  unfold includesSub
  rw [List.any_eq_true]
  refine ⟨a.length, ?_, ?_⟩
  · rw [List.mem_range, List.length_append]
    omega
  · rw [List.drop_left]
    exact startsWithChars_self t

/-- C1: for every sprite sheet of pixel width W and height H the slicer builds
exactly 9 frame rectangles in row-major order, the rectangle of (row, col)
having its top-left corner at (floor (W/3) * col + inset, floor (H/3) * row +
inset) and size (floor (W/3) - 2*inset) by (floor (H/3) - 2*inset), with the
inset the fixed constant 10. -/
theorem frameLayout_c1 (W H row col : Nat) (hr : row < 3) (hc : col < 3) :
    cropAmount = 10 ∧
    (frameLayout W H).length = 9 ∧
    (frameLayout W H)[row * 3 + col]? =
      some { x := Int.ofNat (W / 3) * (col : Int) + 10
             y := Int.ofNat (H / 3) * (row : Int) + 10
             width := Int.ofNat (W / 3) - 2 * 10
             height := Int.ofNat (H / 3) - 2 * 10 } := by
  refine ⟨rfl, by simp [frameLayout], ?_⟩
  rw [frameLayout]
  interval_cases row <;> interval_cases col <;>
    simp only [List.getElem?_map, List.getElem?_range, Option.map_some', Option.some.injEq,
      Frame.mk.injEq, cropAmount, Nat.reduceMul, Nat.reduceAdd, Nat.reduceMod, Nat.reduceDiv,
      Nat.reduceLT, reduceIte] <;>
    (refine ⟨?_, ?_, ?_, ?_⟩ <;> (push_cast; ring))

/-- Witness for C1 at a concrete 300 by 300 sheet and cell (1, 2). -/
theorem frameLayout_c1_witness :
    cropAmount = 10 ∧
    (frameLayout 300 300).length = 9 ∧
    (frameLayout 300 300)[1 * 3 + 2]? =
      some { x := Int.ofNat (300 / 3) * ((2 : Nat) : Int) + 10
             y := Int.ofNat (300 / 3) * ((1 : Nat) : Int) + 10
             width := Int.ofNat (300 / 3) - 2 * 10
             height := Int.ofNat (300 / 3) - 2 * 10 } :=
  frameLayout_c1 300 300 1 2 (by decide) (by decide)

/-- C2: at a display tick with clock origin already set, per-frame duration d
greater than 0 and n frames, the frame index drawn after elapsed time t is
floor ((t mod (n*d)) / d); the index is always a valid frame position; and a
tick whose origin was just reset to the tick timestamp draws frame 0. -/
theorem animate_c2 (origin elapsed d n t2 : Nat)
    (hd : 0 < d) (hn : 0 < n) (ho : 0 < origin) :
    (animate { config := { speed := d }, animationStartTime := origin }
        (origin + elapsed) n).2 = elapsed % (n * d) / d ∧
    elapsed % (n * d) / d < n ∧
    (animate { config := { speed := d }, animationStartTime := 0 } t2 n).2 = 0 := by
  refine ⟨?_, ?_, ?_⟩
  · have ho2 : origin ≠ 0 := by omega
    simp [animate, ho2]
  · have hnd : 0 < n * d := Nat.mul_pos hn hd
    have hmod : elapsed % (n * d) < n * d := Nat.mod_lt _ hnd
    exact (Nat.div_lt_iff_lt_mul hd).mpr (by omega)
  · simp [animate]

/-- Witness for C2 with origin 5, elapsed 1230, duration 100, 9 frames. -/
theorem animate_c2_witness :
    (animate { config := { speed := 100 }, animationStartTime := 5 }
        (5 + 1230) 9).2 = 1230 % (9 * 100) / 100 ∧
    1230 % (9 * 100) / 100 < 9 ∧
    (animate { config := { speed := 100 }, animationStartTime := 0 } 777 9).2 = 0 :=
  animate_c2 5 1230 100 9 777 (by decide) (by decide) (by decide)

/-- C9: changing the per-frame duration only rewrites the config, never the
clock origin, so the next tick selects its frame from the original origin and
the new duration (a time-consistent position) instead of restarting at
frame 0. -/
theorem setSpeed_c9 (st : PlayerState) (v t n : Nat)
    (h0 : st.animationStartTime ≠ 0) :
    (setSpeed st v).animationStartTime = st.animationStartTime ∧
    (setSpeed st v).config.speed = v ∧
    (animate (setSpeed st v) t n).2 = (t - st.animationStartTime) % (n * v) / v ∧
    (animate (setSpeed st v) t n).1.animationStartTime = st.animationStartTime := by
  refine ⟨rfl, rfl, ?_, ?_⟩ <;> simp [animate, setSpeed, h0]

/-- Witness for C9: duration changed to 200 with the origin at 5. -/
theorem setSpeed_c9_witness :
    (setSpeed { config := { speed := 100 }, animationStartTime := 5 } 200).animationStartTime = 5 ∧
    (setSpeed { config := { speed := 100 }, animationStartTime := 5 } 200).config.speed = 200 ∧
    (animate (setSpeed { config := { speed := 100 }, animationStartTime := 5 } 200) 1105 9).2 =
      (1105 - 5) % (9 * 200) / 200 ∧
    (animate (setSpeed { config := { speed := 100 }, animationStartTime := 5 } 200) 1105 9).1.animationStartTime = 5 :=
  setSpeed_c9 { config := { speed := 100 }, animationStartTime := 5 } 200 1105 9 (by decide)

/-- C3: on a nonempty layout the batch always succeeds with one result per
cell in order; a cell whose shrunken width or height is non-positive becomes
the 1-by-1 placeholder instead of failing, and every well-formed cell is still
cropped as given. -/
theorem processSpriteSheet_c3 (layout : List Frame) (h : layout ≠ []) :
    processSpriteSheet layout = some (layout.map sliceCell) ∧
    (layout.map sliceCell).length = layout.length ∧
    ∀ (i : Nat) (f : Frame), layout[i]? = some f →
      (layout.map sliceCell)[i]? = some (sliceCell f) ∧
      ((f.width ≤ 0 ∨ f.height ≤ 0) →
        sliceCell f = Sliced.placeholder ∧
        (sliceCell f).width = 1 ∧ (sliceCell f).height = 1) ∧
      (0 < f.width → 0 < f.height →
        sliceCell f = Sliced.crop f.x f.y f.width f.height) := by
  have hlen : ¬layout.length = 0 := by simpa using h
  refine ⟨by simp [processSpriteSheet, hlen], by simp, ?_⟩
  intro i f hf
  refine ⟨by simp [List.getElem?_map, hf], ?_, ?_⟩
  · intro hbad
    have hp : sliceCell f = Sliced.placeholder := by simp [sliceCell, hbad]
    exact ⟨hp, by rw [hp]; rfl, by rw [hp]; rfl⟩
  · intro hw hh
    have hcond : ¬(f.width ≤ 0 ∨ f.height ≤ 0) := by push_neg; exact ⟨hw, hh⟩
    simp [sliceCell, hcond]

/-- Witness for C3 on a two-cell layout whose first cell is malformed. -/
theorem processSpriteSheet_c3_witness :
    processSpriteSheet [{ x := 10, y := 10, width := -12, height := 80 },
        { x := 110, y := 10, width := 80, height := 80 }] =
      some ([{ x := 10, y := 10, width := -12, height := 80 },
        { x := 110, y := 10, width := 80, height := 80 }].map sliceCell) ∧
    ([({ x := 10, y := 10, width := -12, height := 80 } : Frame),
        { x := 110, y := 10, width := 80, height := 80 }].map sliceCell).length =
      [({ x := 10, y := 10, width := -12, height := 80 } : Frame),
        { x := 110, y := 10, width := 80, height := 80 }].length ∧
    ∀ (i : Nat) (f : Frame), [({ x := 10, y := 10, width := -12, height := 80 } : Frame),
        { x := 110, y := 10, width := 80, height := 80 }][i]? = some f →
      ([({ x := 10, y := 10, width := -12, height := 80 } : Frame),
        { x := 110, y := 10, width := 80, height := 80 }].map sliceCell)[i]? =
          some (sliceCell f) ∧
      ((f.width ≤ 0 ∨ f.height ≤ 0) →
        sliceCell f = Sliced.placeholder ∧
        (sliceCell f).width = 1 ∧ (sliceCell f).height = 1) ∧
      (0 < f.width → 0 < f.height →
        sliceCell f = Sliced.crop f.x f.y f.width f.height) :=
  processSpriteSheet_c3 _ (by decide)

/-- C6 counterexample: saving a second creation places it before the existing
record, not after it, so the new record is not appended. -/
theorem handleSaveCreation_c6_counterexample :
    handleSaveCreation demoCreationB [demoCreationA] = [demoCreationB, demoCreationA] ∧
    handleSaveCreation demoCreationB [demoCreationA] ≠ [demoCreationA, demoCreationB] :=
  ⟨rfl, by decide⟩

/-- C6 (amended): saving a new creation record prepends it to the persisted
ordered collection — the new record is placed before all previously stored
records, which keep their relative order. -/
theorem handleSaveCreation_c6 (c : Creation) (cs : List Creation) :
    (handleSaveCreation c cs).head? = some c ∧
    (handleSaveCreation c cs).tail = cs ∧
    (handleSaveCreation c cs).length = cs.length + 1 :=
  ⟨rfl, rfl, by simp [handleSaveCreation]⟩

/-- C7: deleting by id keeps a subsequence of the collection (so the relative
order of survivors is unchanged), a record survives exactly when its id
differs from the deleted one, and when no record carries the id the
collection is unchanged. -/
theorem handleDeleteCreation_c7 (idv : List Char) (cs : List Creation) :
    List.Sublist (handleDeleteCreation idv cs) cs ∧
    (∀ c, c ∈ handleDeleteCreation idv cs ↔ (c ∈ cs ∧ c.id ≠ idv)) ∧
    ((∀ c ∈ cs, c.id ≠ idv) → handleDeleteCreation idv cs = cs) := by
  refine ⟨List.filter_sublist _, ?_, ?_⟩
  · intro c
    simp [handleDeleteCreation, List.mem_filter, bne_iff_ne]
  · intro hall
    rw [handleDeleteCreation, List.filter_eq_self]
    intro c hc
    simpa [bne_iff_ne] using hall c hc

/-- Witness for C7: deleting an id that no stored record carries leaves the
collection unchanged. -/
theorem handleDeleteCreation_c7_witness :
    handleDeleteCreation ("zz".toList) [demoCreationA, demoCreationB] =
      [demoCreationA, demoCreationB] :=
  (handleDeleteCreation_c7 ("zz".toList) [demoCreationA, demoCreationB]).2.2 (by decide)

/-- C8: the catch branch maps a message containing the credential needle to
the fixed credential message, one containing the quota needle (and not the
credential needle) to the distinct fixed quota message, and wraps any other
message so that the underlying text is propagated inside the user-facing
error; and the whole generator routes every inner failure through this
mapping. -/
theorem mapError_c8 (m : List Char) :
    (includesSub m apiKeyNeedle = true → mapError m = apiKeyMsg) ∧
    (includesSub m apiKeyNeedle = false → includesSub m quotaNeedle = true →
      mapError m = quotaMsg) ∧
    (includesSub m apiKeyNeedle = false → includesSub m quotaNeedle = false →
      mapError m = failHead ++ m ∧ includesSub (mapError m) m = true) ∧
    apiKeyMsg ≠ quotaMsg ∧
    (∀ resp m2, generateInner resp = Except.error m2 →
      generateAnimationAssets resp = Except.error (mapError m2)) := by
  refine ⟨?_, ?_, ?_, by decide, ?_⟩
  · intro h1
    simp [mapError, h1]
  · intro h1 h2
    simp [mapError, h1, h2]
  · intro h1 h2
    have he : mapError m = failHead ++ m := by simp [mapError, h1, h2]
    exact ⟨he, by rw [he]; exact includesSub_append_self _ _⟩
  · intro resp m2 h1
    simp [generateAnimationAssets, h1]

/-- Witness for C8 on a quota failure message. -/
theorem mapError_c8_witness :
    includesSub ("quota exceeded for project".toList) apiKeyNeedle = false ∧
    includesSub ("quota exceeded for project".toList) quotaNeedle = true ∧
    mapError ("quota exceeded for project".toList) = quotaMsg :=
  ⟨by decide, by decide,
    (mapError_c8 ("quota exceeded for project".toList)).2.1 (by decide) (by decide)⟩

/-- C4 counterexample: a reply text that embeds the round-trip JSON object as
a substring but is followed by one more closing brace yields the default 120,
not 150, because the greedy regex extract spans to the last brace and fails
to parse. -/
theorem parseFrameDuration_c4_counterexample :
    includesSub json150Trailing json150 = true ∧
    parseFrameDuration json150Trailing = 120 ∧
    initialSpeed (parseFrameDuration json150Trailing) ≠ 150 :=
  ⟨by decide, by decide, by decide⟩

/-- C4 (amended): when the regex extract of the reply text — first opening
brace to last closing brace — is exactly the JSON object carrying
frameDuration 150, the requester parses exactly 150 and the player's initial
per-frame duration is 150; when the extract is absent, fails to parse, or
lacks the field, the requester still succeeds and returns the documented
default 120. -/
theorem generateAnimationAssets_c4 (text : List Char) (img : InlineData)
    (himg : img.data ≠ []) :
    generateAnimationAssets
        (some [{ inlineData := some img, text := none },
               { inlineData := none, text := some text }]) =
      Except.ok { imageData := img, frames := [],
                  frameDuration := parseFrameDuration text } ∧
    (jsonMatch text = some json150 →
      parseFrameDuration text = 150 ∧ initialSpeed (parseFrameDuration text) = 150) ∧
    (jsonMatch text = none → parseFrameDuration text = 120) ∧
    (∀ s, jsonMatch text = some s → jsonParse s = none →
      parseFrameDuration text = 120) ∧
    (∀ s v, jsonMatch text = some s → jsonParse s = some v →
      objGet v fdKey = none → parseFrameDuration text = 120) := by
  have h1 : img.data.isEmpty = false := by
    cases hd : img.data with
    | nil => exact absurd hd himg
    | cons a as => rfl
  refine ⟨?_, ?_, ?_, ?_, ?_⟩
  · cases text with
    | nil =>
      simp [generateAnimationAssets, generateInner, imageOf, textOf, h1,
        parseFrameDuration, jsonMatch]
    | cons c cs =>
      simp [generateAnimationAssets, generateInner, imageOf, textOf, h1]
  · intro h
    have hp : parseFrameDuration text = 150 := by
      simp only [parseFrameDuration, h]
      decide
    exact ⟨hp, by rw [hp]; decide⟩
  · intro h
    simp only [parseFrameDuration, h]
    decide
  · intro s h1 h2
    simp only [parseFrameDuration, h1, h2]
    decide
  · intro s v h1 h2 h3
    simp only [parseFrameDuration, h1, h2, durationFromParsed, h3]
    decide

/-- Witness for C4 on a reply whose text is exactly the round-trip object. -/
theorem generateAnimationAssets_c4_witness :
    generateAnimationAssets
        (some [{ inlineData := some demoImage, text := none },
               { inlineData := none, text := some json150 }]) =
      Except.ok { imageData := demoImage, frames := [],
                  frameDuration := parseFrameDuration json150 } ∧
    (jsonMatch json150 = some json150 →
      parseFrameDuration json150 = 150 ∧
      initialSpeed (parseFrameDuration json150) = 150) ∧
    (jsonMatch json150 = none → parseFrameDuration json150 = 120) ∧
    (∀ s, jsonMatch json150 = some s → jsonParse s = none →
      parseFrameDuration json150 = 120) ∧
    (∀ s v, jsonMatch json150 = some s → jsonParse s = some v →
      objGet v fdKey = none → parseFrameDuration json150 = 120) :=
  generateAnimationAssets_c4 json150 demoImage (by decide)

/-- C5 counterexample: a no-image response whose text mentions quota is
remapped by the catch branch, so the terminal message does not contain the
response text; and a response with no parts at all is reported without the
no-text marker. -/
theorem generateAnimationAssets_c5_counterexample :
    (generateAnimationAssets (some [{ inlineData := none, text := some quotaText }]) =
        Except.error quotaMsg ∧
      includesSub quotaMsg quotaText = false) ∧
    (generateAnimationAssets none = Except.error (failHead ++ noPartsMsg) ∧
      includesSub (failHead ++ noPartsMsg) noTextMarker = false) :=
  ⟨⟨rfl, by decide⟩, ⟨rfl, by decide⟩⟩

/-- C5 (amended): for a response whose parts list is present but holds no
inline image, the generator throws a terminal error; with no nonempty text
part the message contains the no-text marker; with a nonempty text part t,
provided the no-image message triggers neither the credential nor the quota
remapping, the final message contains t; and the failure handler leaves the
original image and the saved creations untouched. -/
theorem generateAnimationAssets_c5 (parts : List Part) (t : List Char)
    (hnoimg : ∀ p ∈ parts, p.inlineData = none) :
    (textOf parts = none →
      generateAnimationAssets (some parts) =
        Except.error (failHead ++ (noImageHead ++ noTextMarker)) ∧
      includesSub (failHead ++ (noImageHead ++ noTextMarker)) noTextMarker = true) ∧
    (textOf parts = some t →
      includesSub (noImageHead ++ t) apiKeyNeedle = false →
      includesSub (noImageHead ++ t) quotaNeedle = false →
      generateAnimationAssets (some parts) =
        Except.error (failHead ++ (noImageHead ++ t)) ∧
      includesSub (failHead ++ (noImageHead ++ t)) t = true) ∧
    (∀ st m, (handleCreateAnimationFailure st m).originalImage = st.originalImage ∧
      (handleCreateAnimationFailure st m).creations = st.creations) := by
  have hfind : parts.find? (fun p => p.inlineData.isSome) = none :=
    List.find?_eq_none.mpr (fun p hp => by simp [hnoimg p hp])
  have himg : imageOf parts = none := by
    unfold imageOf
    rw [hfind]
    rfl
  refine ⟨?_, ?_, ?_⟩
  · intro ht
    have hmsg : noImageMsg parts = noImageHead ++ noTextMarker := by
      simp [noImageMsg, ht]
    have hinner : generateInner (some parts) =
        Except.error (noImageHead ++ noTextMarker) := by
      simp [generateInner, himg, hmsg]
    have hmap : mapError (noImageHead ++ noTextMarker) =
        failHead ++ (noImageHead ++ noTextMarker) := by decide
    exact ⟨by simp [generateAnimationAssets, hinner, hmap], by decide⟩
  · intro ht hk hq
    have hmsg : noImageMsg parts = noImageHead ++ t := by
      simp [noImageMsg, ht]
    have hinner : generateInner (some parts) = Except.error (noImageHead ++ t) := by
      simp [generateInner, himg, hmsg]
    have hmap : mapError (noImageHead ++ t) = failHead ++ (noImageHead ++ t) := by
      simp [mapError, hk, hq]
    refine ⟨by simp [generateAnimationAssets, hinner, hmap], ?_⟩
    rw [← List.append_assoc]
    exact includesSub_append_self _ _
  · intro st m
    unfold handleCreateAnimationFailure
    split <;> exact ⟨rfl, rfl⟩

/-- Witness for C5 on a one-part response carrying only the text hello. -/
theorem generateAnimationAssets_c5_witness :
    (textOf [{ inlineData := none, text := some ("hello".toList) }] = none →
      generateAnimationAssets (some [{ inlineData := none, text := some ("hello".toList) }]) =
        Except.error (failHead ++ (noImageHead ++ noTextMarker)) ∧
      includesSub (failHead ++ (noImageHead ++ noTextMarker)) noTextMarker = true) ∧
    (textOf [{ inlineData := none, text := some ("hello".toList) }] = some ("hello".toList) →
      includesSub (noImageHead ++ "hello".toList) apiKeyNeedle = false →
      includesSub (noImageHead ++ "hello".toList) quotaNeedle = false →
      generateAnimationAssets (some [{ inlineData := none, text := some ("hello".toList) }]) =
        Except.error (failHead ++ (noImageHead ++ "hello".toList)) ∧
      includesSub (failHead ++ (noImageHead ++ "hello".toList)) ("hello".toList) = true) ∧
    (∀ st m, (handleCreateAnimationFailure st m).originalImage = st.originalImage ∧
      (handleCreateAnimationFailure st m).creations = st.creations) :=
  generateAnimationAssets_c5 [{ inlineData := none, text := some ("hello".toList) }]
    ("hello".toList) (by decide)

/-- C10: a reply whose embedded JSON carries frameDuration 0 yields the
default 120 (0 is falsy), while every nonzero numeric value — including
negative values far outside the documented 80-2000 range — is returned
unvalidated. -/
theorem parseFrameDuration_c10 (d : Int) (hd : d ≠ 0) :
    parseFrameDuration jsonZeroText = 120 ∧
    parseFrameDuration jsonNegText = -500 ∧
    durationFromParsed (Json.obj [(fdKey, Json.num d)]) = d ∧
    durationFromParsed (Json.obj [(fdKey, Json.num 0)]) = 120 := by
  refine ⟨by decide, by decide, ?_, by decide⟩
  simp [durationFromParsed, objGet, defaultFrameDuration, hd]

/-- Witness for C10 at the nonzero out-of-range value -500. -/
theorem parseFrameDuration_c10_witness :
    parseFrameDuration jsonZeroText = 120 ∧
    parseFrameDuration jsonNegText = -500 ∧
    durationFromParsed (Json.obj [(fdKey, Json.num (-500))]) = -500 ∧
    durationFromParsed (Json.obj [(fdKey, Json.num 0)]) = 120 :=
  parseFrameDuration_c10 (-500) (by decide)

end GmSBF
